import Mathlib

/-!
Verification of the NetGuardian core (traffic_analyzer.cpp, render_manager.cpp,
render_manager.h) against its natural-language specification.

Modelling conventions:
* C++ `double` values are modelled as `ℚ` (exact rational arithmetic; the
  spec's numeric claims are about the exact formulas, not float rounding).
* Monotonic-clock time points are modelled as integer microseconds (`ℤ`);
  the source converts all durations with
  `duration_cast<microseconds>(...).count()` before using them.
* `std::sqrt` is external (libm), so the engine is parametrised by an
  abstract `sqrt : ℚ → ℚ`; the only fact ever needed about it is
  `sqrt 0 = 0`, which holds for the real function.
* NAPI snapshot objects are `StatisticsSnapshot`; the empty object returned
  for the very first packet is modelled as `none`.
-/

namespace NetGuardian

/-- Fields of the JS result object built by `CreateResultObject`
(traffic_analyzer.cpp lines 58-82). -/
structure StatisticsSnapshot where
  instantKbps : ℚ
  maxKbps : ℚ
  minKbps : ℚ
  avgKbps : ℚ
  jitter : ℚ
  totalBytes : ℚ
  deriving Repr, DecidableEq

/-- The file-scope globals of traffic_analyzer.cpp (lines 16-28), gathered
into one state record.  `globalMin = -1` encodes "尚未初始化" (uninitialized),
as in the source. -/
structure TrafficState where
  speedWindow : List ℚ
  totalBytes : ℚ
  lastPacketTime : ℤ
  isFirstPacket : Bool
  accumulatedBytes : ℚ
  globalMax : ℚ
  globalAvgKbps : ℚ
  globalMin : ℚ
  sessionStartTime : ℤ
  sampleCount : ℤ
  deriving Repr, DecidableEq

/-- `static const size_t WINDOW_SIZE = 100;` (line 16). -/
def WINDOW_SIZE : ℕ := 100

/-- `static const long long MIN_CALC_INTERVAL_US = 100000;` (line 22). -/
def MIN_CALC_INTERVAL_US : ℤ := 100000

/-- Static initialization of the globals (lines 16-28): empty window, zero
counters, `g_globalMin = -1.0`, default-constructed time points (epoch 0). -/
def initState : TrafficState :=
  { speedWindow := []
    totalBytes := 0
    lastPacketTime := 0
    isFirstPacket := true
    accumulatedBytes := 0
    globalMax := 0
    globalAvgKbps := 0
    globalMin := -1
    sessionStartTime := 0
    sampleCount := 0 }

/-- `ResetState` (lines 31-44).  The body clears `g_speedWindow`,
`g_totalBytes`, `g_accumulatedBytes`, `g_isFirstPacket`, `g_globalMax`,
`g_globalMin`, `g_sampleCount` and sets both time points to `now`.
`g_globalAvgKbps` does not appear in the body, so it keeps its old value. -/
def ResetState (s : TrafficState) (now : ℤ) : TrafficState :=
  { speedWindow := []
    totalBytes := 0
    accumulatedBytes := 0
    isFirstPacket := true
    globalMax := 0
    globalMin := -1
    sampleCount := 0
    lastPacketTime := now
    sessionStartTime := now
    globalAvgKbps := s.globalAvgKbps }

/-- `CalculateJitter` (lines 47-56): returns 0 for windows of size < 2, else
`sqrt(Σ (v - mean)² / size)`. -/
def CalculateJitter (sqrt : ℚ → ℚ) (window : List ℚ) (mean : ℚ) : ℚ :=
  if window.length < 2 then 0
  else sqrt (((window.map (fun v => (v - mean) * (v - mean))).sum) / (window.length : ℚ))

/-- `ProcessTrafficCore` (lines 84-171).  Returns the updated globals and the
result object (`none` models the empty object returned for the first
packet). -/
def ProcessTrafficCore (sqrt : ℚ → ℚ) (s : TrafficState) (byteLength : ℕ) (now : ℤ) :
    TrafficState × Option StatisticsSnapshot :=
  let totalBytes := s.totalBytes + (byteLength : ℚ)
  let accumulatedBytes := s.accumulatedBytes + (byteLength : ℚ)
  if s.isFirstPacket then
    ({ s with
        totalBytes := totalBytes
        accumulatedBytes := accumulatedBytes
        isFirstPacket := false
        lastPacketTime := now
        sessionStartTime := now }, none)
  else
    let duration_us : ℤ := now - s.lastPacketTime
    if duration_us < MIN_CALC_INTERVAL_US then
      -- 时间聚合门禁: repeat last instant/jitter, refresh totalBytes (lines 105-122)
      let lastInstant := if s.speedWindow.isEmpty then 0 else s.speedWindow.getLastD 0
      let windowSum := s.speedWindow.sum
      let windowAvg := if s.speedWindow.isEmpty then 0 else windowSum / (s.speedWindow.length : ℚ)
      let lastJitter := CalculateJitter sqrt s.speedWindow windowAvg
      ({ s with totalBytes := totalBytes, accumulatedBytes := accumulatedBytes },
       some { instantKbps := lastInstant
              maxKbps := s.globalMax
              minKbps := if s.globalMin < 0 then 0 else s.globalMin
              avgKbps := s.globalAvgKbps
              jitter := lastJitter
              totalBytes := totalBytes })
    else
      let duration_sec : ℚ := (duration_us : ℚ) / 1000000
      let currentBits := accumulatedBytes * 8
      let instantKbps := (currentBits / duration_sec) / 1024
      let globalMax := if s.globalMax < instantKbps then instantKbps else s.globalMax
      let sampleCount := s.sampleCount + 1
      let globalMin :=
        if 5 < sampleCount then
          (if s.globalMin < 0 ∨ instantKbps < s.globalMin then instantKbps else s.globalMin)
        else s.globalMin
      let total_us : ℤ := now - s.sessionStartTime
      let total_sec : ℚ := (total_us : ℚ) / 1000000
      let globalAvgKbps := if 0 < total_sec then (totalBytes * 8 / 1024) / total_sec else 0
      let speedWindow :=
        (if WINDOW_SIZE ≤ s.speedWindow.length then s.speedWindow.tail else s.speedWindow)
          ++ [instantKbps]
      let winSum := speedWindow.sum
      let jitter := CalculateJitter sqrt speedWindow (winSum / (speedWindow.length : ℚ))
      ({ s with
          speedWindow := speedWindow
          totalBytes := totalBytes
          lastPacketTime := now
          accumulatedBytes := 0
          globalMax := globalMax
          globalAvgKbps := globalAvgKbps
          globalMin := globalMin
          sampleCount := sampleCount },
       some { instantKbps := instantKbps
              maxKbps := globalMax
              minKbps := if globalMin < 0 then 0 else globalMin
              avgKbps := globalAvgKbps
              jitter := jitter
              totalBytes := totalBytes })

/-- The `static_cast<size_t>(len)` in `AnalyzeLength` (line 215), with
`size_t` 64 bits wide.  For `0 ≤ len < 2^64` the C++ conversion truncates
toward zero, i.e. takes the floor.  Out-of-range conversions are undefined
behaviour in ISO C++; on the aarch64 target the `fcvtzu` instruction
saturates, so negative values convert to 0 and values ≥ 2^64 to
`2^64 - 1`. -/
def toSizeT (len : ℚ) : ℕ :=
  if len < 0 then 0
  else if (2 : ℚ) ^ 64 ≤ len then 2 ^ 64 - 1
  else (⌊len⌋).toNat

/-- `AnalyzeLength` (lines 205-216).  `arg = none` models a JS value for
which `napi_get_value_double` fails (non-numeric): the function returns
`nullptr` before touching any state.  Otherwise the double is converted with
`static_cast<size_t>` and fed to `ProcessTrafficCore`. -/
def AnalyzeLength (sqrt : ℚ → ℚ) (s : TrafficState) (arg : Option ℚ) (now : ℤ) :
    TrafficState × Option StatisticsSnapshot :=
  match arg with
  | none => (s, none)
  | some len => ProcessTrafficCore sqrt s (toSizeT len) now

/-- One event step, keeping only the state (used for event-sequence
invariants). -/
def stepState (sqrt : ℚ → ℚ) (s : TrafficState) (e : ℕ × ℤ) : TrafficState :=
  (ProcessTrafficCore sqrt s e.1 e.2).1

/-- All intermediate states of a session: `initState` followed by the state
after each event of `es`. -/
def stateTrace (sqrt : ℚ → ℚ) (es : List (ℕ × ℤ)) : List TrafficState :=
  List.scanl (stepState sqrt) initState es

/-- Stand-in for `std::sqrt` in concrete evaluations.  Every concrete run
below only ever applies it to `0` (windows of size ≥ 2 never arise there),
where the real square root is also `0`. -/
def zeroSqrt : ℚ → ℚ := fun _ => 0

/-- Mean of a list of samples (spec: "its own mean"). -/
def listMean (l : List ℚ) : ℚ := l.sum / (l.length : ℚ)

/-- Modelled from the spec's words, for comparison with `CalculateJitter`:
"jitter is a population (not sample) standard deviation" of the window
"around its own mean", i.e. `sqrt(Σ (v - mean)² / n)`. -/
def popStdDev (sqrt : ℚ → ℚ) (l : List ℚ) : ℚ :=
  sqrt (((l.map (fun v => (v - listMean l) * (v - listMean l))).sum) / (l.length : ℚ))

/-! ## Render manager (render_manager.cpp / render_manager.h) -/

/-- `const size_t MAX_HISTORY_SIZE = 15;` (render_manager.h line 65). -/
def MAX_HISTORY_SIZE : ℕ := 15

/-- The `RenderManager` fields the core logic reads and writes:
`speedHistory_`, `width_`, `height_`, `nativeWindow_` (modelled as the
boolean "is non-null"), and the atomic `isRendering_` flag. -/
structure RenderState where
  speedHistory : List ℚ
  width : ℕ
  height : ℕ
  hasWindow : Bool
  isRendering : Bool
  deriving Repr, DecidableEq

/-- Outcomes of the external surface/compositor calls made inside
`DrawFrame`: whether `OH_NativeWindow_NativeWindowRequestBuffer` succeeds
(returns 0 with a non-null buffer), whether `handle->virAddr` is already
mapped, and whether the fallback `mmap` succeeds. -/
structure RenderEnv where
  requestBufferOk : Bool
  bufferMapped : Bool
  mmapOk : Bool
  deriving Repr, DecidableEq

/-- Observable outcome of one `DrawFrame` call: the updated manager state,
whether a buffer was requested from the window, whether
`OH_NativeWindow_NativeWindowFlushBuffer` (the compositor submission) was
reached, and the vertices of the stroked polyline that was drawn (empty when
`data.size() <= 1`, where only the cleared background is produced). -/
structure DrawResult where
  state : RenderState
  requested : Bool
  submitted : Bool
  points : List (ℚ × ℚ)
  deriving Repr, DecidableEq

/-- `*std::max_element(data.begin(), data.end())` on a non-empty list
(render_manager.cpp line 174); 0 for the empty list (never queried there). -/
def listMax : List ℚ → ℚ
  | [] => 0
  | x :: xs => xs.foldl max x

/-- The waveform vertices built by the loops of `DrawFrame`
(render_manager.cpp lines 173-200 and 225-231): `maxVal` is the data
maximum floored at 100 and scaled by 1.2, `stepX = width / (MAX_HISTORY_SIZE - 1)`,
and sample `i` maps to `(i * stepX, height - (data[i] / maxVal) * height)`.
(The fill path and the stroke path use exactly these vertices.) -/
def chartPoints (width height : ℚ) (data : List ℚ) : List (ℚ × ℚ) :=
  let maxVal0 := listMax data
  let maxVal1 := if maxVal0 < 100 then 100 else maxVal0
  let maxVal := maxVal1 * (12 / 10)
  let stepX := width / ((MAX_HISTORY_SIZE - 1 : ℕ) : ℚ)
  (List.range data.length).map
    (fun (i : ℕ) => ((i : ℚ) * stepX, height - (data.getD i 0 / maxVal) * height))

/-- `RenderManager::DrawFrame` (render_manager.cpp lines 117-290).  Control
flow: null-window early return; buffer request (early return on failure);
mmap fallback (abort on failure); draw (background always, waveform only
when `data.size() > 1`); copy; flush; and `isRendering_ = false` on every
exit path. -/
def DrawFrame (env : RenderEnv) (s : RenderState) : DrawResult :=
  if s.hasWindow = false then
    { state := { s with isRendering := false }, requested := false, submitted := false, points := [] }
  else if env.requestBufferOk = false then
    { state := { s with isRendering := false }, requested := true, submitted := false, points := [] }
  else if env.bufferMapped = false ∧ env.mmapOk = false then
    { state := { s with isRendering := false }, requested := true, submitted := false, points := [] }
  else
    let data := s.speedHistory
    let pts := if 1 < data.length then chartPoints (s.width : ℚ) (s.height : ℚ) data else []
    { state := { s with isRendering := false }, requested := true, submitted := true, points := pts }

/-- The deque update in `RenderManager::PushData` (lines 30-33): push_back,
then pop_front if the size exceeds `MAX_HISTORY_SIZE`. -/
def pushHistory (h : List ℚ) (v : ℚ) : List ℚ :=
  let h1 := h ++ [v]
  if MAX_HISTORY_SIZE < h1.length then h1.tail else h1

/-- `RenderManager::PushData` (lines 26-41): update the history under the
lock, then `isRendering_.compare_exchange_strong(false, true)`; on success
call `DrawFrame`, otherwise return without drawing. -/
def PushData (env : RenderEnv) (s : RenderState) (v : ℚ) : DrawResult :=
  let s1 := { s with speedHistory := pushHistory s.speedHistory v }
  if s1.isRendering = false then DrawFrame env { s1 with isRendering := true }
  else { state := s1, requested := false, submitted := false, points := [] }

/-- `RenderManager::OnSurfaceChanged` (lines 78-90): record the new size and
call `DrawFrame` directly (no interaction with `isRendering_`). -/
def OnSurfaceChanged (env : RenderEnv) (s : RenderState) (w h : ℕ) : DrawResult :=
  DrawFrame env { s with width := w, height := h }

/-- `RenderManager::OnSurfaceDestroyed` (lines 92-95): clear the window
handle. -/
def OnSurfaceDestroyed (s : RenderState) : RenderState :=
  { s with hasWindow := false }

/-- `RenderManager::GetDataSnapshot` (lines 49-52): a copy of the history
taken under the lock. -/
def GetDataSnapshot (s : RenderState) : List ℚ := s.speedHistory

/-- An environment in which every external surface call succeeds. -/
def envOk : RenderEnv := { requestBufferOk := true, bufferMapped := true, mmapOk := true }

/-! ## Concrete states and runs used in the theorems below -/

/-- A render manager state with a frame currently in flight
(`isRendering_ = true`) and a valid surface. -/
def busyState : RenderState :=
  { speedHistory := [1, 2], width := 100, height := 50, hasWindow := true, isRendering := true }

/-- A render manager state with a valid surface but zero width and height. -/
def zeroSizeState : RenderState :=
  { speedHistory := [1, 2, 3], width := 0, height := 0, hasWindow := true, isRendering := true }

/-- A render manager state whose surface has been destroyed. -/
def noWinState : RenderState :=
  { speedHistory := [4, 5, 6], width := 64, height := 32, hasWindow := false, isRendering := true }

/-- Engine state one 1000-byte packet after session start (time 0), as left
by the first-packet branch. -/
def tickWitnessState : TrafficState :=
  { speedWindow := [], totalBytes := 1000, lastPacketTime := 0, isFirstPacket := false,
    accumulatedBytes := 1000, globalMax := 0, globalAvgKbps := 0, globalMin := -1,
    sessionStartTime := 0, sampleCount := 0 }

/-- Engine state used to exercise the debounce branch with an
uninitialized minimum. -/
def debounceWitnessState : TrafficState :=
  { speedWindow := [], totalBytes := 500, lastPacketTime := 0, isFirstPacket := false,
    accumulatedBytes := 500, globalMax := 0, globalAvgKbps := 0, globalMin := -1,
    sessionStartTime := 0, sampleCount := 0 }

/-- Two chart samples, used to evaluate the chart mapping. -/
def chartWitnessData : List ℚ := [0, 70]

/-- Concrete run for the debounce-average question: 1000 bytes at t=0,
t=200ms (a tick), t=250ms (debounced). -/
def c1S1 : TrafficState := (ProcessTrafficCore zeroSqrt initState 1000 0).1
def c1R2 : TrafficState × Option StatisticsSnapshot := ProcessTrafficCore zeroSqrt c1S1 1000 200000
def c1R3 : TrafficState × Option StatisticsSnapshot := ProcessTrafficCore zeroSqrt c1R2.1 1000 250000

/-- Concrete run for the reset question: two 1000-byte events (0ms, 200ms),
a reset at 300ms, then two more events (400ms, 450ms); `c8Fresh` replays the
last two events from a fresh session. -/
def c8S2 : TrafficState := (ProcessTrafficCore zeroSqrt initState 1000 0).1
def c8S3 : TrafficState := (ProcessTrafficCore zeroSqrt c8S2 1000 200000).1
def c8Reset : TrafficState := ResetState c8S3 300000
def c8S5 : TrafficState := (ProcessTrafficCore zeroSqrt c8Reset 1000 400000).1
def c8Fresh : TrafficState := (ProcessTrafficCore zeroSqrt initState 1000 400000).1

/-! ## Branch-unfolding lemmas for `ProcessTrafficCore` -/

lemma processTrafficCore_first (sq : ℚ → ℚ) (s : TrafficState) (len : ℕ) (now : ℤ)
    (h1 : s.isFirstPacket = true) :
    ProcessTrafficCore sq s len now =
      ({ s with
          totalBytes := s.totalBytes + (len : ℚ),
          accumulatedBytes := s.accumulatedBytes + (len : ℚ),
          isFirstPacket := false,
          lastPacketTime := now,
          sessionStartTime := now }, none) := by
  simp only [ProcessTrafficCore, if_pos h1]

lemma processTrafficCore_debounce (sq : ℚ → ℚ) (s : TrafficState) (len : ℕ) (now : ℤ)
    (h1 : s.isFirstPacket = false)
    (h2 : now - s.lastPacketTime < MIN_CALC_INTERVAL_US) :
    ProcessTrafficCore sq s len now =
      ({ s with
          totalBytes := s.totalBytes + (len : ℚ),
          accumulatedBytes := s.accumulatedBytes + (len : ℚ) },
       some { instantKbps := if s.speedWindow.isEmpty then 0 else s.speedWindow.getLastD 0,
              maxKbps := s.globalMax,
              minKbps := if s.globalMin < 0 then 0 else s.globalMin,
              avgKbps := s.globalAvgKbps,
              jitter :=
                CalculateJitter sq s.speedWindow
                  (if s.speedWindow.isEmpty then 0
                   else s.speedWindow.sum / (s.speedWindow.length : ℚ)),
              totalBytes := s.totalBytes + (len : ℚ) }) := by
  simp only [ProcessTrafficCore, h1, Bool.false_eq_true, if_false, if_pos h2]

lemma processTrafficCore_tick (sq : ℚ → ℚ) (s : TrafficState) (len : ℕ) (now : ℤ)
    (h1 : s.isFirstPacket = false)
    (h2 : ¬ (now - s.lastPacketTime < MIN_CALC_INTERVAL_US)) :
    ProcessTrafficCore sq s len now =
      ({ s with
          speedWindow :=
            (if WINDOW_SIZE ≤ s.speedWindow.length then s.speedWindow.tail else s.speedWindow)
              ++ [(s.accumulatedBytes + (len : ℚ)) * 8 /
                    (((now - s.lastPacketTime : ℤ) : ℚ) / 1000000) / 1024],
          totalBytes := s.totalBytes + (len : ℚ),
          lastPacketTime := now,
          accumulatedBytes := 0,
          globalMax :=
            if s.globalMax <
                (s.accumulatedBytes + (len : ℚ)) * 8 /
                  (((now - s.lastPacketTime : ℤ) : ℚ) / 1000000) / 1024 then
              (s.accumulatedBytes + (len : ℚ)) * 8 /
                (((now - s.lastPacketTime : ℤ) : ℚ) / 1000000) / 1024
            else s.globalMax,
          globalAvgKbps :=
            if 0 < ((now - s.sessionStartTime : ℤ) : ℚ) / 1000000 then
              (s.totalBytes + (len : ℚ)) * 8 / 1024 /
                (((now - s.sessionStartTime : ℤ) : ℚ) / 1000000)
            else 0,
          globalMin :=
            if 5 < s.sampleCount + 1 then
              if s.globalMin < 0 ∨
                  (s.accumulatedBytes + (len : ℚ)) * 8 /
                      (((now - s.lastPacketTime : ℤ) : ℚ) / 1000000) / 1024 <
                    s.globalMin then
                (s.accumulatedBytes + (len : ℚ)) * 8 /
                  (((now - s.lastPacketTime : ℤ) : ℚ) / 1000000) / 1024
              else s.globalMin
            else s.globalMin,
          sampleCount := s.sampleCount + 1 },
       some { instantKbps :=
                (s.accumulatedBytes + (len : ℚ)) * 8 /
                  (((now - s.lastPacketTime : ℤ) : ℚ) / 1000000) / 1024,
              maxKbps :=
                if s.globalMax <
                    (s.accumulatedBytes + (len : ℚ)) * 8 /
                      (((now - s.lastPacketTime : ℤ) : ℚ) / 1000000) / 1024 then
                  (s.accumulatedBytes + (len : ℚ)) * 8 /
                    (((now - s.lastPacketTime : ℤ) : ℚ) / 1000000) / 1024
                else s.globalMax,
              minKbps :=
                if (if 5 < s.sampleCount + 1 then
                      if s.globalMin < 0 ∨
                          (s.accumulatedBytes + (len : ℚ)) * 8 /
                              (((now - s.lastPacketTime : ℤ) : ℚ) / 1000000) / 1024 <
                            s.globalMin then
                        (s.accumulatedBytes + (len : ℚ)) * 8 /
                          (((now - s.lastPacketTime : ℤ) : ℚ) / 1000000) / 1024
                      else s.globalMin
                    else s.globalMin) < 0 then 0
                else
                  if 5 < s.sampleCount + 1 then
                    if s.globalMin < 0 ∨
                        (s.accumulatedBytes + (len : ℚ)) * 8 /
                            (((now - s.lastPacketTime : ℤ) : ℚ) / 1000000) / 1024 <
                          s.globalMin then
                      (s.accumulatedBytes + (len : ℚ)) * 8 /
                        (((now - s.lastPacketTime : ℤ) : ℚ) / 1000000) / 1024
                    else s.globalMin
                  else s.globalMin,
              avgKbps :=
                if 0 < ((now - s.sessionStartTime : ℤ) : ℚ) / 1000000 then
                  (s.totalBytes + (len : ℚ)) * 8 / 1024 /
                    (((now - s.sessionStartTime : ℤ) : ℚ) / 1000000)
                else 0,
              jitter :=
                CalculateJitter sq
                  ((if WINDOW_SIZE ≤ s.speedWindow.length then s.speedWindow.tail
                    else s.speedWindow)
                    ++ [(s.accumulatedBytes + (len : ℚ)) * 8 /
                          (((now - s.lastPacketTime : ℤ) : ℚ) / 1000000) / 1024])
                  (((if WINDOW_SIZE ≤ s.speedWindow.length then s.speedWindow.tail
                     else s.speedWindow)
                      ++ [(s.accumulatedBytes + (len : ℚ)) * 8 /
                            (((now - s.lastPacketTime : ℤ) : ℚ) / 1000000) / 1024]).sum /
                    (((if WINDOW_SIZE ≤ s.speedWindow.length then s.speedWindow.tail
                       else s.speedWindow)
                        ++ [(s.accumulatedBytes + (len : ℚ)) * 8 /
                              (((now - s.lastPacketTime : ℤ) : ℚ) / 1000000) / 1024]).length : ℚ)),
              totalBytes := s.totalBytes + (len : ℚ) }) := by
  simp only [ProcessTrafficCore, h1, Bool.false_eq_true, if_false, if_neg h2]

/-! ## Helper lemmas -/

lemma calculateJitter_eq_popStdDev (sq : ℚ → ℚ) (hs0 : sq 0 = 0) (w : List ℚ) :
    CalculateJitter sq w (w.sum / (w.length : ℚ)) = popStdDev sq w := by
  match w with
  | [] => simp [CalculateJitter, popStdDev, listMean, hs0]
  | [v] => simp [CalculateJitter, popStdDev, listMean, hs0]
  | a :: b :: w2 =>
      rw [CalculateJitter, if_neg (by simp), popStdDev, listMean]

lemma pushHistory_length_le (h : List ℚ) (v : ℚ) (hh : h.length ≤ MAX_HISTORY_SIZE) :
    (pushHistory h v).length ≤ MAX_HISTORY_SIZE := by
  simp only [pushHistory, List.length_append, List.length_cons, List.length_nil]
  split_ifs with hc
  · simp only [List.length_tail, List.length_append, List.length_cons, List.length_nil]
    omega
  · simp only [List.length_append, List.length_cons, List.length_nil]
    omega

lemma foldl_pushHistory (xs : List ℚ) :
    ∀ h : List ℚ, h.length ≤ MAX_HISTORY_SIZE →
      xs.foldl pushHistory h = (h ++ xs).drop ((h ++ xs).length - MAX_HISTORY_SIZE) := by
  induction xs with
  | nil =>
      intro h hh
      simp only [List.foldl_nil, List.append_nil]
      rw [Nat.sub_eq_zero_of_le hh, List.drop_zero]
  | cons v t ih =>
      intro h hh
      rw [List.foldl_cons, ih (pushHistory h v) (pushHistory_length_le h v hh)]
      by_cases hc : MAX_HISTORY_SIZE < h.length + 1
      · have hlen : h.length = MAX_HISTORY_SIZE := by omega
        obtain ⟨a, h2, rfl⟩ : ∃ a h2, h = a :: h2 := by
          cases h with
          | nil => simp [MAX_HISTORY_SIZE] at hlen
          | cons a h2 => exact ⟨a, h2, rfl⟩
        have h2len : h2.length + 1 = MAX_HISTORY_SIZE := by simpa using hlen
        have hpush : pushHistory (a :: h2) v = h2 ++ [v] := by
          simp only [pushHistory, List.cons_append, List.length_cons, List.length_append,
            List.length_nil]
          rw [if_pos (by omega), List.tail_cons]
        rw [hpush]
        have e1 : ((h2 ++ [v]) ++ t).length - MAX_HISTORY_SIZE = t.length := by
          simp only [List.length_append, List.length_cons, List.length_nil]
          omega
        have e2 : ((a :: h2) ++ v :: t).length - MAX_HISTORY_SIZE = t.length + 1 := by
          simp only [List.length_append, List.length_cons]
          omega
        rw [e1, e2]
        have e3 : (a :: h2) ++ v :: t = a :: (h2 ++ v :: t) := by simp
        rw [e3, List.drop_succ_cons]
        have e4 : (h2 ++ [v]) ++ t = h2 ++ v :: t := by simp
        rw [e4]
      · have hpush : pushHistory h v = h ++ [v] := by
          simp only [pushHistory, List.length_append, List.length_cons, List.length_nil]
          rw [if_neg (by omega)]
        rw [hpush]
        simp [List.append_assoc]

lemma step_extremes (sq : ℚ → ℚ) (s : TrafficState) (len : ℕ) (now : ℤ)
    (hacc : 0 ≤ s.accumulatedBytes) :
    0 ≤ (ProcessTrafficCore sq s len now).1.accumulatedBytes ∧
    s.globalMax ≤ (ProcessTrafficCore sq s len now).1.globalMax ∧
    (0 ≤ s.globalMin →
        (ProcessTrafficCore sq s len now).1.globalMin ≤ s.globalMin ∧
        0 ≤ (ProcessTrafficCore sq s len now).1.globalMin) ∧
    (s.sampleCount < 5 → (ProcessTrafficCore sq s len now).1.globalMin = s.globalMin) := by
  have hlen : (0 : ℚ) ≤ (len : ℚ) := Nat.cast_nonneg len
  rcases hb : s.isFirstPacket with hfalse | htrue
  · by_cases h2 : now - s.lastPacketTime < MIN_CALC_INTERVAL_US
    · rw [processTrafficCore_debounce sq s len now hb h2]
      exact ⟨add_nonneg hacc hlen, le_refl _, fun hm => ⟨le_refl _, hm⟩, fun _ => rfl⟩
    · rw [processTrafficCore_tick sq s len now hb h2]
      push_neg at h2
      have hdsec : (0 : ℚ) < ((now - s.lastPacketTime : ℤ) : ℚ) / 1000000 := by
        apply div_pos _ (by norm_num)
        have hc : (MIN_CALC_INTERVAL_US : ℚ) ≤ ((now - s.lastPacketTime : ℤ) : ℚ) := by
          exact_mod_cast h2
        calc (0 : ℚ) < (MIN_CALC_INTERVAL_US : ℚ) := by norm_num [MIN_CALC_INTERVAL_US]
          _ ≤ _ := hc
      have hinst0 :
          (0 : ℚ) ≤ (s.accumulatedBytes + (len : ℚ)) * 8 /
              (((now - s.lastPacketTime : ℤ) : ℚ) / 1000000) / 1024 := by
        apply div_nonneg _ (by norm_num)
        exact div_nonneg (mul_nonneg (add_nonneg hacc hlen) (by norm_num)) (le_of_lt hdsec)
      refine ⟨le_refl _, ?_, ?_, ?_⟩
      · dsimp only
        split_ifs with hmax
        · exact le_of_lt hmax
        · exact le_refl _
      · intro hm
        dsimp only
        split_ifs with hc1 hc2
        · rcases hc2 with hneg | hlt
          · exact absurd hm (not_le.mpr hneg)
          · exact ⟨le_of_lt hlt, hinst0⟩
        · exact ⟨le_refl _, hm⟩
        · exact ⟨le_refl _, hm⟩
      · intro hcount
        dsimp only
        rw [if_neg (by omega)]
  · rw [processTrafficCore_first sq s len now hb]
    exact ⟨add_nonneg hacc hlen, le_refl _, fun hm => ⟨le_refl _, hm⟩, fun _ => rfl⟩

lemma head_scanl {α β : Type} (f : β → α → β) (b : β) (l : List α) :
    (List.scanl f b l).head? = some b := by
  cases l <;> rfl

lemma chain_scanl {α β : Type} (f : β → α → β) (P : β → Prop) (R : β → β → Prop)
    (hP : ∀ b a, P b → P (f b a)) (hR : ∀ b a, P b → R b (f b a)) :
    ∀ (l : List α) (b : β), P b → List.Chain' R (List.scanl f b l) := by
  intro l
  induction l with
  | nil =>
      intro b hb
      simp [List.scanl]
  | cons a t ih =>
      intro b hb
      rw [List.scanl_cons, List.singleton_append, List.chain'_cons']
      refine ⟨?_, ih (f b a) (hP b a hb)⟩
      intro y hy
      rw [head_scanl] at hy
      injection hy with hy
      subst hy
      exact hR b a hb

/-! ## Claim theorems -/

/-- C1: in the debounce path (`elapsed < 100ms`) the snapshot repeats the
previous tick's `instantKbps` and `jitter` and refreshes `totalBytes`, but —
contrary to the claim — `avgKbps` is NOT refreshed with the session-wide
elapsed time at the new arrival: the code returns the stale `g_globalAvgKbps`
computed at the previous tick (625/8 here), not the refreshed value (375/4),
even though the inline comment at line 118 labels it "实时更新" (real-time
update) exactly like `totalBytes`. -/
theorem debounce_stale_avg :
    c1R2.2.map (fun sn => sn.avgKbps) = some (625 / 8) ∧
    c1R3.2.map (fun sn => sn.instantKbps) = c1R2.2.map (fun sn => sn.instantKbps) ∧
    c1R3.2.map (fun sn => sn.jitter) = c1R2.2.map (fun sn => sn.jitter) ∧
    c1R3.2.map (fun sn => sn.totalBytes) = some 3000 ∧
    c1R3.2.map (fun sn => sn.avgKbps) = some (625 / 8) ∧
    (c1R3.1.totalBytes * 8 / 1024) / ((250000 : ℚ) / 1000000) = 375 / 4 ∧
    (625 / 8 : ℚ) ≠ 375 / 4 := by
  norm_num [c1R3, c1R2, c1S1, ProcessTrafficCore, initState, MIN_CALC_INTERVAL_US,
    CalculateJitter, WINDOW_SIZE]

/-- C2 counterexample: a surface-resize trigger that arrives while a frame is
in flight (`isRendering_ = true`) is not dropped: `OnSurfaceChanged` calls
`DrawFrame` directly, bypassing the test-and-set guard, and a second
compositor submission occurs. -/
theorem resize_submits_during_flight :
    busyState.isRendering = true ∧ (OnSurfaceChanged envOk busyState 200 80).submitted = true :=
  ⟨rfl, rfl⟩

/-- C2 (amended): only push triggers honour the reentrancy guard — a
`PushData` issued while a frame is in flight updates the history and is a
silent no-op (no buffer request, no submission); `OnSurfaceChanged` calls
`DrawFrame` unconditionally; the guard is cleared on every exit path of
`DrawFrame`. -/
theorem push_guard_no_reentry :
    (∀ env s v, s.isRendering = true →
        PushData env s v =
          { state := { s with speedHistory := pushHistory s.speedHistory v },
            requested := false, submitted := false, points := [] }) ∧
    (∀ env s, (DrawFrame env s).state.isRendering = false) := by
  constructor
  · intro env s v hs
    simp [PushData, hs]
  · intro env s
    simp only [DrawFrame]
    split_ifs <;> rfl

/-- C2 witness: the guarded-push case evaluated at a concrete in-flight
state. -/
theorem push_guard_no_reentry_witness :
    PushData envOk busyState 7 =
      { state := { busyState with speedHistory := pushHistory busyState.speedHistory 7 },
        requested := false, submitted := false, points := [] } :=
  push_guard_no_reentry.1 envOk busyState 7 rfl

/-- C3 counterexample: a negative byte count (-5) passed to `AnalyzeLength`
is not rejected — `napi_get_value_double` succeeds and the value is cast to
`size_t`, so `ProcessTrafficCore` runs and mutates the engine state (here the
first-packet transition is consumed). -/
theorem negative_input_mutates :
    (AnalyzeLength zeroSqrt initState (some (-5)) 0).1.isFirstPacket = false ∧
    initState.isFirstPacket = true ∧
    (AnalyzeLength zeroSqrt initState (some (-5)) 0).1 ≠ initState := by
  refine ⟨rfl, rfl, fun hcontra => ?_⟩
  have h := congrArg TrafficState.isFirstPacket hcontra
  simp [AnalyzeLength, ProcessTrafficCore, toSizeT, initState] at h

/-- C3 (amended): only non-numeric inputs are rejected at the boundary with
the statistics state untouched; a negative numeric byte count is instead
coerced by the `size_t` cast (0 on the aarch64 target) and processed as a
normal event, mutating the statistics state. -/
theorem boundary_rejection_behaviour :
    (∀ sq : ℚ → ℚ, ∀ s now, AnalyzeLength sq s none now = (s, none)) ∧
    (∀ sq : ℚ → ℚ, ∀ s now (x : ℚ), x < 0 →
        AnalyzeLength sq s (some x) now = ProcessTrafficCore sq s 0 now) ∧
    (AnalyzeLength zeroSqrt initState (some (-5)) 0).1 ≠ initState := by
  refine ⟨fun sq s now => rfl, ?_, fun hcontra => ?_⟩
  · intro sq s now x hx
    simp [AnalyzeLength, toSizeT, hx]
  · have h := congrArg TrafficState.isFirstPacket hcontra
    simp [AnalyzeLength, ProcessTrafficCore, toSizeT, initState] at h

/-- C3 witness: the negative-input case evaluated at -3. -/
theorem boundary_rejection_witness :
    AnalyzeLength zeroSqrt initState (some (-3)) 5 = ProcessTrafficCore zeroSqrt initState 0 5 :=
  boundary_rejection_behaviour.2.1 zeroSqrt initState 5 (-3) (by norm_num)

/-- C4 counterexample: `DrawFrame` never checks the recorded width/height —
with a valid surface of zero width and zero height it still requests a
buffer, renders and submits to the compositor. -/
theorem zero_size_still_submits :
    zeroSizeState.width = 0 ∧ zeroSizeState.height = 0 ∧
    (DrawFrame envOk zeroSizeState).submitted = true :=
  ⟨rfl, rfl, rfl⟩

/-- C4 (amended): `DrawFrame` without a valid surface handle — in particular
any invocation after `OnSurfaceDestroyed` — performs no buffer request, no
rendering and no submission, and still clears the in-flight guard, which is
cleared on every exit path; zero width/height, however, is not checked and
does not prevent rendering or submission. -/
theorem no_window_noop :
    (∀ env s, s.hasWindow = false →
        DrawFrame env s =
          { state := { s with isRendering := false },
            requested := false, submitted := false, points := [] }) ∧
    (∀ env s, DrawFrame env (OnSurfaceDestroyed s) =
        { state := { OnSurfaceDestroyed s with isRendering := false },
          requested := false, submitted := false, points := [] }) ∧
    (∀ env s, (DrawFrame env s).state.isRendering = false) := by
  refine ⟨?_, ?_, ?_⟩
  · intro env s hs
    simp [DrawFrame, hs]
  · intro env s
    simp [DrawFrame, OnSurfaceDestroyed]
  · intro env s
    simp only [DrawFrame]
    split_ifs <;> rfl

/-- C4 witness: the no-window case evaluated at a concrete destroyed-surface
state. -/
theorem no_window_noop_witness :
    DrawFrame envOk noWinState =
      { state := { noWinState with isRendering := false },
        requested := false, submitted := false, points := [] } :=
  no_window_noop.1 envOk noWinState rfl

/-- C5: the chart sample buffer is a strict FIFO of capacity 15 — a push
appends and evicts the oldest entry when the length would exceed the
capacity, after any push sequence the buffer holds exactly the last
`min(length, 15)` values in arrival order, and pushing 1..20 yields
[6, ..., 20]. -/
theorem chart_buffer_bounded :
    (∀ env s v, (PushData env s v).state.speedHistory = pushHistory s.speedHistory v) ∧
    (∀ xs : List ℚ,
        xs.foldl pushHistory [] = xs.drop (xs.length - MAX_HISTORY_SIZE) ∧
        (xs.foldl pushHistory []).length ≤ MAX_HISTORY_SIZE) ∧
    ([1, 2, 3, 4, 5, 6, 7, 8, 9, 10, 11, 12, 13, 14, 15, 16, 17, 18, 19, 20] : List ℚ).foldl
        pushHistory []
      = [6, 7, 8, 9, 10, 11, 12, 13, 14, 15, 16, 17, 18, 19, 20] := by
  refine ⟨?_, ?_, ?_⟩
  · intro env s v
    simp only [PushData, DrawFrame]
    split_ifs <;> rfl
  · intro xs
    have h := foldl_pushHistory xs [] (by simp)
    simp only [List.nil_append] at h
    refine ⟨h, ?_⟩
    rw [h, List.length_drop]
    omega
  · rfl

/-- C6: on a tick (`elapsed >= 100ms`) the snapshot satisfies
`instantKbps = (pendingBytes * 8 / 1024) / elapsedSeconds` (binary kilo),
`avgKbps = (totalBytes * 8 / 1024) / sessionElapsedSeconds` with 0 (not a
fault) when the session elapsed time is zero, and `jitter` equal to the
population standard deviation of the sliding window (capacity 100, oldest
evicted) after `instantKbps` is pushed; afterwards the pending accumulator is
cleared and `lastPacketTime` advanced to `now`. -/
theorem tick_computation (sq : ℚ → ℚ) (hs0 : sq 0 = 0) (s : TrafficState) (len : ℕ) (now : ℤ)
    (hfp : s.isFirstPacket = false)
    (hel : MIN_CALC_INTERVAL_US ≤ now - s.lastPacketTime)
    (hwin : s.speedWindow.length ≤ WINDOW_SIZE) :
    ((ProcessTrafficCore sq s len now).2.isSome = true) ∧
    (∀ sn, (ProcessTrafficCore sq s len now).2 = some sn →
        sn.instantKbps =
            ((s.accumulatedBytes + (len : ℚ)) * 8 / 1024) /
              (((now - s.lastPacketTime : ℤ) : ℚ) / 1000000) ∧
        (0 < ((now - s.sessionStartTime : ℤ) : ℚ) / 1000000 →
            sn.avgKbps =
              ((s.totalBytes + (len : ℚ)) * 8 / 1024) /
                (((now - s.sessionStartTime : ℤ) : ℚ) / 1000000)) ∧
        (((now - s.sessionStartTime : ℤ) : ℚ) / 1000000 = 0 → sn.avgKbps = 0) ∧
        sn.jitter =
          popStdDev sq
            ((if WINDOW_SIZE ≤ s.speedWindow.length then s.speedWindow.tail else s.speedWindow)
              ++ [sn.instantKbps]) ∧
        sn.totalBytes = s.totalBytes + (len : ℚ)) ∧
    (ProcessTrafficCore sq s len now).1.accumulatedBytes = 0 ∧
    (ProcessTrafficCore sq s len now).1.lastPacketTime = now ∧
    (ProcessTrafficCore sq s len now).1.speedWindow =
      (if WINDOW_SIZE ≤ s.speedWindow.length then s.speedWindow.tail else s.speedWindow)
        ++ [((s.accumulatedBytes + (len : ℚ)) * 8 / 1024) /
              (((now - s.lastPacketTime : ℤ) : ℚ) / 1000000)] ∧
    ((ProcessTrafficCore sq s len now).1.speedWindow).length ≤ WINDOW_SIZE := by
  have hnd : ¬ (now - s.lastPacketTime < MIN_CALC_INTERVAL_US) := not_lt.mpr hel
  have hinst :
      (s.accumulatedBytes + (len : ℚ)) * 8 / (((now - s.lastPacketTime : ℤ) : ℚ) / 1000000) /
          1024 =
        ((s.accumulatedBytes + (len : ℚ)) * 8 / 1024) /
          (((now - s.lastPacketTime : ℤ) : ℚ) / 1000000) := div_right_comm _ _ _
  rw [processTrafficCore_tick sq s len now hfp hnd]
  refine ⟨rfl, ?_, rfl, rfl, ?_, ?_⟩
  · intro sn hsn
    dsimp only at hsn
    injection hsn with h
    subst h
    refine ⟨hinst, ?_, ?_, ?_, rfl⟩
    · intro hpos
      dsimp only
      rw [if_pos hpos]
    · intro hzero
      dsimp only
      rw [hzero, if_neg (lt_irrefl 0)]
    · dsimp only
      rw [calculateJitter_eq_popStdDev sq hs0, hinst]
  · dsimp only
    rw [hinst]
  · dsimp only
    simp only [List.length_append, List.length_cons, List.length_nil]
    split_ifs with hc
    · simp only [List.length_tail]
      have h1 : 1 ≤ s.speedWindow.length := le_trans (by norm_num [WINDOW_SIZE]) hc
      omega
    · push_neg at hc
      omega

/-- C6 witness: a concrete tick 200ms after the previous packet. -/
theorem tick_computation_witness :
    (ProcessTrafficCore zeroSqrt tickWitnessState 1000 200000).2.isSome = true ∧
    (ProcessTrafficCore zeroSqrt tickWitnessState 1000 200000).1.accumulatedBytes = 0 := by
  have h := tick_computation zeroSqrt rfl tickWitnessState 1000 200000 rfl (by decide) (by decide)
  exact ⟨h.1, h.2.2.1⟩

/-- C7: across any event sequence from a fresh session, `maxKbps` is
non-decreasing and `globalMin`, once non-negative, is non-increasing and
stays non-negative; the minimum is not updated before the 6th computed tick
(`sampleCount < 5` leaves it unchanged); and while the minimum is
uninitialized (negative sentinel) any returned snapshot reports `minKbps` as
0. -/
theorem extremes_monotone (sq : ℚ → ℚ) (es : List (ℕ × ℤ)) :
    List.Chain'
      (fun a b =>
        a.globalMax ≤ b.globalMax ∧
        (0 ≤ a.globalMin → b.globalMin ≤ a.globalMin ∧ 0 ≤ b.globalMin) ∧
        (a.sampleCount < 5 → b.globalMin = a.globalMin))
      (stateTrace sq es) ∧
    (∀ s len now, (ProcessTrafficCore sq s len now).1.globalMin < 0 →
        (ProcessTrafficCore sq s len now).2.map (fun sn => sn.minKbps) =
          (ProcessTrafficCore sq s len now).2.map (fun _ => 0)) := by
  constructor
  · apply chain_scanl (stepState sq) (fun t => 0 ≤ t.accumulatedBytes)
    · intro b e hb
      exact (step_extremes sq b e.1 e.2 hb).1
    · intro b e hb
      have h := step_extremes sq b e.1 e.2 hb
      exact ⟨h.2.1, h.2.2.1, h.2.2.2⟩
    · norm_num [initState]
  · intro s len now hmin
    rcases hb : s.isFirstPacket with hfalse | htrue
    · by_cases h2 : now - s.lastPacketTime < MIN_CALC_INTERVAL_US
      · rw [processTrafficCore_debounce sq s len now hb h2] at hmin ⊢
        dsimp only at hmin ⊢
        rw [Option.map_some', Option.map_some']
        dsimp only
        rw [if_pos hmin]
      · rw [processTrafficCore_tick sq s len now hb h2] at hmin ⊢
        dsimp only at hmin ⊢
        rw [Option.map_some', Option.map_some']
        dsimp only
        rw [if_pos hmin]
    · rw [processTrafficCore_first sq s len now hb]
      rfl

/-- C7 witness: the uninitialized-minimum-reports-0 case evaluated on a
concrete debounced event. -/
theorem extremes_monotone_witness :
    (ProcessTrafficCore zeroSqrt debounceWitnessState 1000 50000).2.map (fun sn => sn.minKbps) =
      (ProcessTrafficCore zeroSqrt debounceWitnessState 1000 50000).2.map (fun _ => 0) := by
  apply (extremes_monotone zeroSqrt []).2 debounceWitnessState 1000 50000
  rw [processTrafficCore_debounce zeroSqrt debounceWitnessState 1000 50000 rfl (by decide)]
  norm_num [debounceWitnessState]

/-- C8: `ResetState` clears window, totals, pending accumulator, extremes,
counter and timestamps, but — contrary to the claim — it does not clear
`g_globalAvgKbps`: after a session whose last tick computed 625/8 kbps, a
reset followed by two quick events reports `avgKbps = 625/8`, while the same
two events in a fresh session report 0.  Residual state survives the reset.
-/
theorem reset_leaves_residual_avg :
    c8Reset.globalAvgKbps = 625 / 8 ∧
    c8Reset.speedWindow = [] ∧ c8Reset.totalBytes = 0 ∧ c8Reset.accumulatedBytes = 0 ∧
    c8Reset.isFirstPacket = true ∧ c8Reset.globalMax = 0 ∧ c8Reset.globalMin = -1 ∧
    c8Reset.sampleCount = 0 ∧
    (ProcessTrafficCore zeroSqrt c8S5 1000 450000).2.map (fun sn => sn.avgKbps)
      = some (625 / 8) ∧
    (ProcessTrafficCore zeroSqrt c8Fresh 1000 450000).2.map (fun sn => sn.avgKbps)
      = some 0 ∧
    (625 / 8 : ℚ) ≠ 0 := by
  norm_num [c8S5, c8Fresh, c8Reset, c8S3, c8S2, ResetState, ProcessTrafficCore, initState,
    MIN_CALC_INTERVAL_US, CalculateJitter, WINDOW_SIZE]

/-- C9: with at least two samples, sample `i` maps to horizontal position
`i * (surfaceWidth / (N - 1))` where `N` is the fixed capacity 15 (not the
current count) and value `v` to `surfaceHeight - (v / yMax) * surfaceHeight`
with `yMax = max(maxSample, 100) * 1.2`; these are the points `DrawFrame`
draws, and with fewer than `N` samples every x-coordinate stays strictly left
of the surface width. -/
theorem chart_mapping (w h : ℚ) (data : List ℚ) (hn : 2 ≤ data.length) :
    (∀ i : ℕ, i < data.length →
        (chartPoints w h data).get? i =
          some ((i : ℚ) * (w / ((MAX_HISTORY_SIZE : ℚ) - 1)),
                h - (data.getD i 0 / (max (listMax data) 100 * (12 / 10))) * h)) ∧
    (∀ env s, s.hasWindow = true → env.requestBufferOk = true → env.bufferMapped = true →
        1 < s.speedHistory.length →
        (DrawFrame env s).points = chartPoints (s.width : ℚ) (s.height : ℚ) s.speedHistory) ∧
    (0 < w → data.length < MAX_HISTORY_SIZE →
        ∀ p ∈ chartPoints w h data, p.1 < w) := by
  have hstep : ((MAX_HISTORY_SIZE - 1 : ℕ) : ℚ) = (MAX_HISTORY_SIZE : ℚ) - 1 := by
    norm_num [MAX_HISTORY_SIZE]
  have hmax : (if listMax data < 100 then 100 else listMax data) = max (listMax data) 100 := by
    rcases lt_or_le (listMax data) 100 with hc | hc
    · rw [if_pos hc, max_eq_right (le_of_lt hc)]
    · rw [if_neg (not_lt.mpr hc), max_eq_left hc]
  refine ⟨?_, ?_, ?_⟩
  · intro i hi
    simp only [chartPoints, List.get?_map]
    rw [List.get?_range hi]
    rw [Option.map_some', hstep, hmax]
  · intro env s hw hrb hbm hlen
    simp only [DrawFrame, hw, hrb, hbm, Bool.true_eq_false, if_false, false_and]
    rw [if_pos hlen]
  · intro hw hshort p hp
    simp only [chartPoints, List.mem_map, List.mem_range] at hp
    obtain ⟨i, hi, rfl⟩ := hp
    dsimp only
    have hi14 : (i : ℚ) < ((MAX_HISTORY_SIZE - 1 : ℕ) : ℚ) := by
      have : i < MAX_HISTORY_SIZE - 1 := by
        have h15 : MAX_HISTORY_SIZE = 15 := rfl
        omega
      exact_mod_cast this
    have hpos : (0 : ℚ) < ((MAX_HISTORY_SIZE - 1 : ℕ) : ℚ) := by
      norm_num [MAX_HISTORY_SIZE]
    calc (i : ℚ) * (w / ((MAX_HISTORY_SIZE - 1 : ℕ) : ℚ))
        < ((MAX_HISTORY_SIZE - 1 : ℕ) : ℚ) * (w / ((MAX_HISTORY_SIZE - 1 : ℕ) : ℚ)) := by
          exact mul_lt_mul_of_pos_right hi14 (div_pos hw hpos)
      _ = w := by
          rw [mul_comm, div_mul_cancel₀]
          exact ne_of_gt hpos

/-- C9 witness: the mapping evaluated at width 140, height 100, samples
[0, 70]. -/
theorem chart_mapping_witness :
    (chartPoints 140 100 chartWitnessData).get? 1 = some (10, 125 / 3) := by
  have h := (chart_mapping 140 100 chartWitnessData (by norm_num [chartWitnessData])).1 1
    (by norm_num [chartWitnessData])
  rw [h]
  norm_num [chartWitnessData, listMax, MAX_HISTORY_SIZE, max_def]

/-- C10 counterexample: `2^64` is a finite non-negative value (exactly
representable as a double) whose conversion does not yield its floor — the
64-bit `size_t` cast is out of range there (undefined behaviour in ISO C++;
saturating to `2^64 - 1` on the aarch64 target), so the engine processes
`2^64 - 1`, not `⌊x⌋ = 2^64`. -/
theorem truncation_fails_at_64bit :
    AnalyzeLength zeroSqrt initState (some ((2 : ℚ) ^ 64)) 0 =
      ProcessTrafficCore zeroSqrt initState (toSizeT ((2 : ℚ) ^ 64)) 0 ∧
    toSizeT ((2 : ℚ) ^ 64) = 2 ^ 64 - 1 ∧
    ((toSizeT ((2 : ℚ) ^ 64) : ℕ) : ℤ) ≠ ⌊((2 : ℚ) ^ 64)⌋ := by
  refine ⟨rfl, ?_, ?_⟩
  · rw [toSizeT, if_neg (by norm_num), if_pos (le_refl _)]
  · rw [toSizeT, if_neg (by norm_num), if_pos (le_refl _)]
    norm_num

/-- C10 (amended): a finite non-negative numeric input `x < 2^64` to the
`analyzeLength` boundary reaches the engine as `toSizeT x`, whose value is
`⌊x⌋` — in-range fractional byte counts are truncated toward zero by the
double-to-`size_t` conversion, neither rounded to nearest nor rejected;
inputs at or above `2^64` exceed the range of the 64-bit cast (undefined
behaviour, saturating on the target) and are not floored. -/
theorem analyzeLength_truncates (sq : ℚ → ℚ) (s : TrafficState) (now : ℤ) (x : ℚ)
    (hx : 0 ≤ x) (hx64 : x < (2 : ℚ) ^ 64) :
    AnalyzeLength sq s (some x) now = ProcessTrafficCore sq s (toSizeT x) now ∧
    ((toSizeT x : ℕ) : ℤ) = ⌊x⌋ := by
  refine ⟨rfl, ?_⟩
  rw [toSizeT, if_neg (not_lt.mpr hx), if_neg (not_le.mpr hx64)]
  exact Int.toNat_of_nonneg (Int.floor_nonneg.mpr hx)

/-- C10 witness: 7/2 is in range and processed as 3. -/
theorem analyzeLength_truncates_witness :
    (0 : ℚ) ≤ 7 / 2 ∧ (7 / 2 : ℚ) < (2 : ℚ) ^ 64 ∧
    ((toSizeT (7 / 2) : ℕ) : ℤ) = ⌊(7 / 2 : ℚ)⌋ ∧ toSizeT (7 / 2) = 3 :=
  ⟨by norm_num, by norm_num,
   (analyzeLength_truncates zeroSqrt initState 0 (7 / 2) (by norm_num) (by norm_num)).2,
   by rw [toSizeT, if_neg (by norm_num), if_neg (by norm_num)]; norm_num; rfl⟩

end NetGuardian
